import Mathlib

/-!
Verification of the ntfy-mcp-server streaming-subscription and polling core.

This file gives a shallow embedding, in Lean, of the state and the operations
of the subscription engine (src/services/ntfy/subscriber.ts and constants.ts),
the wire-record parser and poll fetch helper (src/services/ntfy/utils.ts),
the subscription registry (subscriptionManager.ts) and the poll-state store
(src/mcp-server/tools/pollTool/pollState.ts and pollManager.ts), and proves
the behavioural properties stated in the specification against them.

Modelling conventions:
* JavaScript wall-clock reads (Date.now()) become explicit Nat parameters.
* setInterval / setTimeout callbacks become explicit step functions; a pending
  reconnect setTimeout is recorded in the state as the delay it was armed with.
* Callback handlers are modelled by their presence flags plus the list of
  invocations (events) an operation emits, in order.
* JSON.parse is an external runtime facility; it is passed in as a function
  argument of type String to Option JsValue.  Parsed JSON documents are
  modelled one level deep: a document is a primitive or an object whose field
  values are primitives, where nested arrays and objects are collapsed to an
  opaque always-truthy marker.  The code under verification only ever inspects
  top-level fields and their truthiness and string value, which the collapse
  preserves.
-/

namespace NtfyMcp

/-! ### Constants (src/services/ntfy/constants.ts) -/

/-- Keepalive timeout in milliseconds (constants.ts line 27). -/
def KEEPALIVE_TIMEOUT : Nat := 120000

/-- Delay before attempting to reconnect after failure (constants.ts line 30). -/
def RECONNECT_DELAY : Nat := 5000

/-- Maximum reconnect attempts before giving up (constants.ts line 33). -/
def MAX_RECONNECT_ATTEMPTS : Nat := 5

/-- Default HTTP request timeout in milliseconds (constants.ts line 24). -/
def DEFAULT_REQUEST_TIMEOUT : Nat := 30000

/-! ### JSON values, one level deep -/

/-- A primitive JSON value, or an opaque marker for a nested array/object
(which is always truthy and is never further inspected by this codebase). -/
inductive JsPrim where
  | null
  | bool (b : Bool)
  | num (n : Int)
  | str (s : String)
  | composite
  deriving DecidableEq, Repr

/-- A parsed JSON document: a bare primitive, or an object one level deep. -/
inductive JsValue where
  | prim (p : JsPrim)
  | obj (fields : List (String × JsPrim))
  deriving DecidableEq, Repr

/-- JavaScript falsiness of a field value: null, false, 0 and the empty
string are falsy; arrays and objects are always truthy. -/
def JsPrim.falsy : JsPrim → Bool
  | .null => true
  | .bool b => !b
  | .num n => n == 0
  | .str s => s == ""
  | .composite => false

/-- Property access m.k on a parsed JSON document: a field of an object if
present, and undefined (none) otherwise, also on non-objects. -/
def JsValue.getField : JsValue → String → Option JsPrim
  | .obj fields, k => fields.lookup k
  | .prim _, _ => none

/-- Truthiness of the property access m.k, with undefined being falsy. -/
def JsValue.truthyField (m : JsValue) (k : String) : Bool :=
  match m.getField k with
  | none => false
  | some v => !v.falsy

/-! ### JavaScript string helpers

The source splits buffers on the newline character and tests lines with
trim(); these are given as executable definitions over the character list
of a string so that concrete runs reduce inside the kernel. -/

/-- Split a character list on a separator; always returns one more part
than there are separators, like the JavaScript split. -/
def splitOnChar (sep : Char) : List Char → List (List Char)
  | [] => [[]]
  | c :: cs =>
    match splitOnChar sep cs with
    | [] => [[]]
    | h :: t => if c = sep then [] :: h :: t else (c :: h) :: t

/-- The JavaScript buffer.split of the source, with the newline separator. -/
def jsSplitLines (s : String) : List String :=
  (splitOnChar (Char.ofNat 10) s.data).map (fun l => String.mk l)

/-- The JavaScript String.prototype.trim, over ASCII whitespace. -/
def jsTrim (s : String) : String :=
  String.mk
    (((s.data.dropWhile Char.isWhitespace).reverse.dropWhile
        Char.isWhitespace).reverse)

/-! ### Error classification (src/services/ntfy/errors.ts) -/

/-- Classification of the errors thrown by the subscription engine.  The
first five correspond to the Ntfy* error classes of errors.ts; jsTypeError
stands for the JavaScript TypeError raised by invoking an undefined value. -/
inductive ErrKind where
  | timeout
  | connection
  | parse
  | subscriptionClosed
  | invalidTopic
  | jsTypeError
  deriving DecidableEq, Repr

/-- Whether the error is an instance of the NtfyError base class: every
Ntfy* class of errors.ts extends NtfyError; a TypeError does not. -/
def ErrKind.isNtfyError : ErrKind → Bool
  | .jsTypeError => false
  | _ => true

/-! ### Handlers and events (src/services/ntfy/types.ts handlers) -/

/-- Which of the optional subscription callbacks were supplied. -/
structure Handlers where
  hasOnMessage : Bool
  hasOnOpen : Bool
  hasOnKeepalive : Bool
  hasOnAnyMessage : Bool
  hasOnError : Bool
  hasOnClose : Bool
  deriving DecidableEq, Repr

/-- One callback invocation observable by the caller of subscribe. -/
inductive Event where
  | onMessage (m : JsValue)
  | onOpen (m : JsValue)
  | onKeepalive (m : JsValue)
  | onAnyMessage (m : JsValue)
  | onError (k : ErrKind)
  | onClose
  deriving DecidableEq, Repr

/-! ### parseJsonMessageSync (src/services/ntfy/utils.ts lines 335-355) -/

/-- The required-field check of parseJsonMessageSync: the guard
(not message.id or not message.time or not message.event or not message.topic)
fails the parse when any of the four fields is absent or JavaScript-falsy. -/
def hasRequiredFields (m : JsValue) : Bool :=
  m.truthyField "id" && m.truthyField "time" && m.truthyField "event" &&
    m.truthyField "topic"

/-- parseJsonMessageSync: rejects empty input, input that JSON.parse cannot
parse, and records failing the required-field check; every failure is wrapped
into an NtfyParseError by the surrounding catch.  jparse stands for the
runtime JSON.parse, returning none where JSON.parse would throw. -/
def parseJsonMessageSync (jparse : String → Option JsValue) (data : String) :
    Except ErrKind JsValue :=
  if data = "" then .error .parse
  else
    match jparse data with
    | none => .error .parse
    | some m => if hasRequiredFields m then .ok m else .error .parse

/-! ### Subscriber state (src/services/ntfy/subscriber.ts fields) -/

/-- The mutable state of one NtfySubscriber, together with the one piece of
environment state the engine owns: whether a reconnect setTimeout is armed,
and with which delay. -/
structure Sub where
  /-- an AbortController is currently installed (abortController field) -/
  hasAbortController : Bool
  /-- abort() has been called on the currently installed controller -/
  aborted : Bool
  /-- a cleanup callback for the request-timeout timer is installed -/
  hasCleanupFn : Bool
  connectionActive : Bool
  lastKeepaliveTime : Nat
  reconnectAttempts : Nat
  /-- the keepalive setInterval is running -/
  keepaliveRunning : Bool
  /-- delay of the armed reconnect setTimeout, if one is pending -/
  pendingReconnectDelay : Option Nat
  deriving DecidableEq, Repr

/-- stopKeepaliveCheck (subscriber.ts lines 323-328): clear the keepalive
interval if it is running. -/
def stopKeepaliveCheck (s : Sub) : Sub :=
  { s with keepaliveRunning := false }

/-- unsubscribe (subscriber.ts lines 91-105): stop the keepalive check,
abort and drop the controller if one is installed, run and drop the cleanup
callback if one is installed, and clear connectionActive.  It emits no
callback invocations. -/
def unsubscribe (s : Sub) : Sub :=
  let s1 := stopKeepaliveCheck s
  let s2 := if s1.hasAbortController then
      { s1 with aborted := true, hasAbortController := false }
    else s1
  let s3 := if s2.hasCleanupFn then { s2 with hasCleanupFn := false } else s2
  { s3 with connectionActive := false }

/-- handleSubscriptionError (subscriber.ts lines 287-297): when an onError
handler is supplied, pass NtfyError instances through unchanged and wrap
anything else into an NtfyConnectionError. -/
def handleSubscriptionErrorEvents (h : Handlers) (e : ErrKind) : List Event :=
  if h.hasOnError then
    if e.isNtfyError then [.onError e] else [.onError .connection]
  else []

/-- One firing of the keepalive setInterval callback (subscriber.ts lines
306-317): if more than KEEPALIVE_TIMEOUT elapsed since the last record and
the connection is active, report an NtfyTimeoutError and unsubscribe. -/
def keepaliveTick (h : Handlers) (now : Nat) (s : Sub) : Sub × List Event :=
  if KEEPALIVE_TIMEOUT < now - s.lastKeepaliveTime ∧ s.connectionActive then
    (unsubscribe s, handleSubscriptionErrorEvents h .timeout)
  else (s, [])

/-- The error processJsonStream rethrows for a failed read (subscriber.ts
lines 217-228): an AbortError surfaces as NtfySubscriptionClosedError, any
other read failure as NtfyConnectionError. -/
def readErrorThrown (isAbort : Bool) : ErrKind :=
  if isAbort then .subscriptionClosed else .connection

/-- The reconnect condition of the catch block of startSubscription
(subscriber.ts lines 164-168): streaming mode, not a deliberate close, and
under the attempt bound. -/
def shouldReconnect (poll : Bool) (e : ErrKind) (attempts : Nat) : Bool :=
  !poll && !(e == .subscriptionClosed) && attempts < MAX_RECONNECT_ATTEMPTS

/-- scheduleReconnect (subscriber.ts lines 336-350): increment the attempt
counter and arm a setTimeout with delay RECONNECT_DELAY times the new
counter value. -/
def scheduleReconnect (s : Sub) : Sub :=
  let n := s.reconnectAttempts + 1
  { s with reconnectAttempts := n,
           pendingReconnectDelay := some (RECONNECT_DELAY * n) }

/-- Outcome of the catch block of startSubscription: the state afterwards
and the error it rethrows, if any. -/
structure CatchResult where
  state : Sub
  thrown : Option ErrKind
  deriving DecidableEq, Repr

/-- The catch block of startSubscription (subscriber.ts lines 156-173): it
first invokes this.cleanupFn() - which raises a TypeError when the cleanup
callback has already been cleared (for instance by an interleaved
unsubscribe) - then drops the cleanup callback and the controller, clears
connectionActive, and either schedules a reconnect or rethrows. -/
def startSubscriptionCatch (poll : Bool) (e : ErrKind) (s : Sub) : CatchResult :=
  if !s.hasCleanupFn then
    { state := s, thrown := some .jsTypeError }
  else
    let s1 := { s with hasCleanupFn := false, hasAbortController := false,
                       connectionActive := false }
    if shouldReconnect poll e s1.reconnectAttempts then
      { state := scheduleReconnect s1, thrown := none }
    else
      { state := s1, thrown := some e }

/-! ### Record dispatch (subscriber.ts handleMessage, lines 236-263) -/

/-- handleMessage: dispatch one parsed record to the matching typed handler
according to its event field (message, open, keepalive), then always to
onAnyMessage; handlers that were not supplied are skipped. -/
def handleMessageEvents (h : Handlers) (m : JsValue) : List Event :=
  (match m.getField "event" with
   | some (.str "message") => if h.hasOnMessage then [.onMessage m] else []
   | some (.str "open") => if h.hasOnOpen then [.onOpen m] else []
   | some (.str "keepalive") => if h.hasOnKeepalive then [.onKeepalive m] else []
   | _ => []) ++
  (if h.hasOnAnyMessage then [.onAnyMessage m] else [])

/-- handleParseError (subscriber.ts lines 270-281): report the failure
through onError when that handler is supplied, wrapping non-parse errors
into an NtfyParseError, so the reported classification is always parse. -/
def handleParseErrorEvents (h : Handlers) : List Event :=
  if h.hasOnError then [.onError .parse] else []

/-- Events produced by one complete line of the stream (the loop body of
processJsonStream, subscriber.ts lines 207-216): blank lines are skipped;
a line that parses is dispatched; a line that fails to parse is dropped
with a parse error report.  The events do not depend on subscriber state. -/
def lineEvents (jparse : String → Option JsValue) (h : Handlers)
    (line : String) : List Event :=
  if jsTrim line = "" then []
  else
    match parseJsonMessageSync jparse line with
    | .ok m => handleMessageEvents h m
    | .error _ => handleParseErrorEvents h

/-- State effect of one complete line: a successfully parsed record of any
kind refreshes lastKeepaliveTime (handleMessage, subscriber.ts line 238);
blank and malformed lines leave the state unchanged. -/
def processLine (jparse : String → Option JsValue) (h : Handlers) (now : Nat)
    (s : Sub) (line : String) : Sub × List Event :=
  if jsTrim line = "" then (s, [])
  else
    match parseJsonMessageSync jparse line with
    | .ok m => ({ s with lastKeepaliveTime := now }, handleMessageEvents h m)
    | .error _ => (s, handleParseErrorEvents h)

/-- Process a list of complete lines in order, threading the state and
concatenating the emitted events. -/
def processLines (jparse : String → Option JsValue) (h : Handlers) (now : Nat) :
    Sub → List String → Sub × List Event
  | s, [] => (s, [])
  | s, line :: rest =>
    let r1 := processLine jparse h now s line
    let r2 := processLines jparse h now r1.1 rest
    (r2.1, r1.2 ++ r2.2)

/-- One decoded chunk appended to the buffer and split on newlines
(subscriber.ts lines 199-216): every part but the last is a complete line
and is processed; the trailing part stays in the buffer. -/
def processChunk (jparse : String → Option JsValue) (h : Handlers) (now : Nat)
    (s : Sub) (buffer data : String) : Sub × String × List Event :=
  let parts := jsSplitLines (buffer ++ data)
  let r := processLines jparse h now s parts.dropLast
  (r.1, parts.getLastD "", r.2)

/-! ### The read loop (subscriber.ts processJsonStream, lines 180-230) -/

/-- One result of awaiting reader.read(): a decoded chunk arriving at wall
time t, the end of the stream, or a rejection (isAbort: an AbortError). -/
inductive ReadResult where
  | chunk (t : Nat) (data : String)
  | done
  | readErr (isAbort : Bool)
  deriving DecidableEq, Repr

/-- Result of running the read loop against a script of read results. -/
structure StreamRun where
  state : Sub
  buffer : String
  events : List Event
  thrown : Option ErrKind
  deriving DecidableEq, Repr

/-- The while loop of processJsonStream: while connectionActive, await one
read result; on done clear connectionActive, emit onClose if supplied, and
return; on a chunk process its complete lines and continue; on a read
failure clear connectionActive and rethrow it classified by readErrorThrown.
A script that runs out while the connection is still active models a stream
that is still open: the loop is suspended with nothing more to observe. -/
def processStream (jparse : String → Option JsValue) (h : Handlers) :
    Sub → String → List ReadResult → StreamRun
  | s, buf, [] => { state := s, buffer := buf, events := [], thrown := none }
  | s, buf, r :: rest =>
    if s.connectionActive then
      match r with
      | .done =>
        ({ state := { s with connectionActive := false }, buffer := buf,
           events := if h.hasOnClose then [.onClose] else [], thrown := none })
      | .chunk t data =>
        let c := processChunk jparse h t s buf data
        let rec0 := processStream jparse h c.1 c.2.1 rest
        { rec0 with events := c.2.2 ++ rec0.events }
      | .readErr isAbort =>
        ({ state := { s with connectionActive := false }, buffer := buf,
           events := [], thrown := some (readErrorThrown isAbort) })
    else { state := s, buffer := buf, events := [], thrown := none }

/-! ### One connection attempt (subscriber.ts startSubscription, 113-174) -/

/-- The observable fate of one connection attempt: the initial fetch may
reject, the response may be non-2xx or lack a body (each raising an
NtfyConnectionError before the stream starts), or the body stream runs
against a script of read results. -/
inductive AttemptScript where
  | connectFail
  | body (script : List ReadResult)
  deriving DecidableEq, Repr

/-- Result of one startSubscription call: final state, events emitted,
error rethrown out of it if any, and whether a reconnect was scheduled. -/
structure AttemptResult where
  state : Sub
  events : List Event
  thrown : Option ErrKind
  scheduled : Bool
  deriving DecidableEq, Repr

/-- startSubscription: install a fresh AbortController and cleanup callback,
perform the request, on success mark the connection active and run the read
loop; any error thrown on the way (including out of the read loop) lands in
the catch block startSubscriptionCatch. -/
def runAttempt (jparse : String → Option JsValue) (h : Handlers) (poll : Bool)
    (s : Sub) (a : AttemptScript) : AttemptResult :=
  let s0 := { s with hasAbortController := true, aborted := false,
                     hasCleanupFn := true }
  match a with
  | .connectFail =>
    let c := startSubscriptionCatch poll .connection s0
    { state := c.state, events := [], thrown := c.thrown,
      scheduled := c.thrown.isNone }
  | .body script =>
    let s1 := { s0 with connectionActive := true }
    let run := processStream jparse h s1 "" script
    match run.thrown with
    | none =>
      { state := run.state, events := run.events, thrown := none,
        scheduled := false }
    | some e =>
      let c := startSubscriptionCatch poll e run.state
      { state := c.state, events := run.events, thrown := c.thrown,
        scheduled := c.thrown.isNone }

/-- The retry chain driven by the reconnect setTimeout callbacks
(subscriber.ts lines 343-349 and subscribe lines 70-85): the first attempt
runs under subscribe; while an attempt ends by scheduling a reconnect, the
armed timer later finds connectionActive false and starts the next attempt;
an attempt that resolves, or whose rethrown error reaches its awaiting
catch handler (which reports it through handleSubscriptionError), ends the
chain. -/
def runChain (jparse : String → Option JsValue) (h : Handlers) (poll : Bool) :
    Sub → List AttemptScript → Sub × List Event
  | s, [] => (s, [])
  | s, a :: rest =>
    let r := runAttempt jparse h poll s a
    if r.scheduled then
      let next := runChain jparse h poll r.state rest
      (next.1, r.events ++ next.2)
    else
      match r.thrown with
      | some e => (r.state, r.events ++ handleSubscriptionErrorEvents h e)
      | none => (r.state, r.events)

/-! ### The keepalive-detected death of a connection -/

/-- Result of the full unwinding that follows a keepalive timeout. -/
structure DeathPathResult where
  state : Sub
  events : List Event
  deriving DecidableEq, Repr

/-- The complete keepalive-death scenario: the interval callback fires
(keepaliveTick: report timeout, unsubscribe, which aborts the in-flight
read); the aborted read then rejects, processJsonStream clears
connectionActive and rethrows it as NtfySubscriptionClosedError
(subscriber.ts lines 217-228); the catch block of startSubscription handles
that error; and whatever it rethrows reaches the catch handler of the call
that awaited startSubscription, which reports it through
handleSubscriptionError.  Streaming subscriptions have poll = false. -/
def keepaliveDeathPath (h : Handlers) (now : Nat) (s : Sub) : DeathPathResult :=
  let t := keepaliveTick h now s
  let s2 := { t.1 with connectionActive := false }
  let c := startSubscriptionCatch false (readErrorThrown true) s2
  let evs2 := match c.thrown with
    | some e => handleSubscriptionErrorEvents h e
    | none => []
  { state := c.state, events := t.2 ++ evs2 }

/-! ### JavaScript Map semantics, as insertion-ordered association lists -/

/-- Map.prototype.set: replace the value in place if the key exists,
otherwise append a new entry. -/
def mapSet (k : String) (v : α) : List (String × α) → List (String × α)
  | [] => [(k, v)]
  | (k0, v0) :: t => if k0 = k then (k0, v) :: t else (k0, v0) :: mapSet k v t

/-- Map.prototype.delete: remove the entry for the key, if present. -/
def mapDelete (k : String) : List (String × α) → List (String × α)
  | [] => []
  | (k0, v0) :: t => if k0 = k then t else (k0, v0) :: mapDelete k t

/-- Map.prototype.get, as an Option. -/
def mapGet (k : String) : List (String × α) → Option α
  | [] => none
  | (k0, v0) :: t => if k0 = k then some v0 else mapGet k t

/-- Map.prototype.has. -/
def mapHas (k : String) (m : List (String × α)) : Bool :=
  (mapGet k m).isSome

/-! ### Subscription registry (subscriptionManager.ts) -/

/-- Subscription status (subscriptionTool/types.ts). -/
inductive SubStatus where
  | connecting
  | active
  | error
  | stopped
  deriving DecidableEq, Repr

/-- The registry record for one subscription (SubscriptionInfo). -/
structure SubscriptionInfo where
  id : String
  topic : String
  status : SubStatus
  createdAt : Nat
  lastActivity : Option Nat
  messageCount : Nat
  errorMessage : Option String
  deriving DecidableEq, Repr

/-- The two maps owned by InMemorySubscriptionManager: subscription records
and subscriber instances, both keyed by subscription id (the subscriber
values themselves carry no registry-relevant state, so only the key set is
modelled). -/
structure ManagerState where
  subscriptions : List (String × SubscriptionInfo)
  subscribers : List (String × Unit)
  deriving DecidableEq, Repr

/-- The ntfy section of the process configuration (config, envConfig.ts). -/
structure NtfyCfg where
  maxSubscriptions : Nat
  subscriptionTimeout : Nat
  pollStateTtl : Nat
  defaultMessageLimit : Nat
  deriving DecidableEq, Repr

/-- getActiveSubscriptions (subscriptionManager.ts lines 262-265): the
records whose status is active or connecting. -/
def getActiveSubscriptions (m : ManagerState) : List SubscriptionInfo :=
  (m.subscriptions.map Prod.snd).filter
    (fun sub => sub.status == SubStatus.active || sub.status == SubStatus.connecting)

/-- How createSubscription can fail: the quota check, or a rethrown failure
from starting the underlying subscriber. -/
inductive CreateErr where
  | capacity
  | startFailed (e : ErrKind)
  deriving DecidableEq, Repr

/-- Result of createSubscription: the outcome and the final registry state. -/
structure CreateResult where
  result : Except CreateErr String
  state : ManagerState
  deriving Repr

/-- createSubscription (subscriptionManager.ts lines 37-193): reject with a
capacity error when the active-or-connecting count is at or above the
configured maximum, before touching either map; otherwise register a
connecting record and a subscriber under a freshly generated id and start
the subscriber.  startResult stands for the awaited subscriber.subscribe
call; if it throws, both entries are deleted again and the error is
rethrown. -/
def createSubscription (cfg : NtfyCfg) (m : ManagerState)
    (subscriptionId topic : String) (now : Nat)
    (startResult : Except ErrKind Unit) : CreateResult :=
  if cfg.maxSubscriptions ≤ (getActiveSubscriptions m).length then
    { result := .error .capacity, state := m }
  else
    let info : SubscriptionInfo :=
      { id := subscriptionId, topic := topic, status := .connecting,
        createdAt := now, lastActivity := none, messageCount := 0,
        errorMessage := none }
    let m1 : ManagerState :=
      { m with subscriptions := mapSet subscriptionId info m.subscriptions }
    let m2 : ManagerState :=
      { m1 with subscribers := mapSet subscriptionId () m1.subscribers }
    match startResult with
    | .ok _ => { result := .ok subscriptionId, state := m2 }
    | .error e =>
      { result := .error (.startFailed e),
        state := { subscriptions := mapDelete subscriptionId m2.subscriptions,
                   subscribers := mapDelete subscriptionId m2.subscribers } }

/-! ### Poll state (pollTool/types.ts, pollState.ts, pollManager.ts) -/

/-- The per-topic polling cursor (PollState, pollTool/types.ts). -/
structure PollState where
  topic : String
  lastMessageId : Option String
  lastPollTime : Nat
  totalMessagesSeen : Nat
  createdAt : Nat
  updatedAt : Nat
  deriving DecidableEq, Repr

/-- The fields of a fetched notification record that the poll path reads:
its id and its wire time in unix seconds. -/
structure NotifMsg where
  id : String
  time : Nat
  deriving DecidableEq, Repr

/-- The since parameter sent to the server: a message id, a timestamp (the
stored lastPollTime in milliseconds, which the code renders as an ISO
string), or absent. -/
inductive SinceParam where
  | byId (id : String)
  | byTime (ms : Nat)
  | noSince
  deriving DecidableEq, Repr

/-- The since computation of processPollTopic (pollManager.ts lines 75-85):
prefer lastMessageId, else fall back to lastPollTime when positive. -/
def computeSince (ps : PollState) : SinceParam :=
  match ps.lastMessageId with
  | some mid => .byId mid
  | none => if 0 < ps.lastPollTime then .byTime ps.lastPollTime else .noSince

/-- The fresh state built on first poll for a topic (pollManager.ts lines
59-73). -/
def freshPollState (topic : String) (now : Nat) : PollState :=
  { topic := topic, lastMessageId := none, lastPollTime := now,
    totalMessagesSeen := 0, createdAt := now, updatedAt := now }

/-- The duplicate filter of processPollTopic (pollManager.ts lines 111-124):
with an id cursor every fetched message counts as new; with a time cursor
only messages whose time in milliseconds is strictly after lastPollTime. -/
def filterNew (ps : PollState) (allMessages : List NotifMsg) : List NotifMsg :=
  match ps.lastMessageId with
  | some _ => allMessages
  | none => allMessages.filter (fun msg => ps.lastPollTime < msg.time * 1000)

/-- The state update of processPollTopic (pollManager.ts lines 126-136):
when new messages were found, point the id cursor at the last of them and
add their count; always refresh lastPollTime and updatedAt to now. -/
def updatePollState (now : Nat) (ps : PollState) (newMessages : List NotifMsg) :
    PollState :=
  let ps2 := match newMessages.getLast? with
    | some mostRecent =>
      { ps with lastMessageId := some mostRecent.id,
                totalMessagesSeen := ps.totalMessagesSeen + newMessages.length }
    | none => ps
  { ps2 with lastPollTime := now, updatedAt := now }

/-- What one poll computes and stores. -/
structure PollOutcome where
  since : SinceParam
  newMessages : List NotifMsg
  state : PollState
  deriving DecidableEq, Repr

/-- The core of processPollTopic (pollManager.ts lines 55-139) for a topic
whose fetch returned allMessages: take the stored state or create a fresh
one, compute since, filter the fetched messages, and update the state.  The
wall-clock reads within the one call are collapsed into the single value
now. -/
def processPollCore (now : Nat) (prior : Option PollState) (topic : String)
    (allMessages : List NotifMsg) : PollOutcome :=
  let ps := match prior with
    | some ps => ps
    | none => freshPollState topic now
  { since := computeSince ps,
    newMessages := filterNew ps allMessages,
    state := updatePollState now ps (filterNew ps allMessages) }

/-- The poll-state store: topic to PollState, a JavaScript Map. -/
abbrev PollStore := List (String × PollState)

/-- getState (pollState.ts lines 31-66): evict and miss when the stored
state is older than the TTL, else return it. -/
def getState (ttl now : Nat) (store : PollStore) (topic : String) :
    PollStore × Option PollState :=
  match mapGet topic store with
  | none => (store, none)
  | some st =>
    if ttl < now - st.updatedAt then (mapDelete topic store, none)
    else (store, some st)

/-- setState (pollState.ts lines 71-86): stamp updatedAt and store. -/
def setState (now : Nat) (store : PollStore) (topic : String) (ps : PollState) :
    PollStore :=
  mapSet topic { ps with updatedAt := now } store

/-- One complete poll operation against the store (processPollTopic without
resetState): read the cursor through getState, run the poll core on the
fetch result, and store the updated cursor through setState. -/
def pollStep (ttl : Nat) (topic : String) (allMessages : List NotifMsg)
    (now : Nat) (store : PollStore) : PollStore × PollOutcome :=
  let g := getState ttl now store topic
  let outcome := processPollCore now g.2 topic allMessages
  (setState now g.1 topic outcome.state, outcome)

/-! ### fetchMessages (src/services/ntfy/utils.ts lines 505-638) -/

/-- Whether a parsed record is kept by the fetch loop (utils.ts lines
600-604): only records whose event field is the string message. -/
def keepFetchedLine (jparse : String → Option JsValue) (line : String) :
    Option JsValue :=
  match parseJsonMessageSync jparse line with
  | .ok m => if m.getField "event" == some (.str "message") then some m else none
  | .error _ => none

/-- The effective limit (utils.ts line 617): options.limit or 100, where a
limit of 0 is JavaScript-falsy and also falls back to 100. -/
def effectiveLimit (limit : Option Nat) : Nat :=
  match limit with
  | some l => if l = 0 then 100 else l
  | none => 100

/-- The message accumulation loop of fetchMessages (utils.ts lines
592-614): split the trimmed response body on newlines and parse each
non-blank line, skipping lines that fail to parse and keeping only
message-kind records, in response order. -/
def keptMessages (jparse : String → Option JsValue) (responseText : String) :
    List JsValue :=
  if jsTrim responseText = "" then []
  else
    (jsSplitLines (jsTrim responseText)).filterMap (fun line =>
      if jsTrim line = "" then none else keepFetchedLine jparse line)

/-- The response-processing tail of fetchMessages (utils.ts lines 590-627):
the accumulated message-kind records, truncated to the first limit of them. -/
def fetchMessagesBody (jparse : String → Option JsValue) (limit : Option Nat)
    (responseText : String) : List JsValue :=
  (keptMessages jparse responseText).take (effectiveLimit limit)

/-! ### Map lemmas -/

/-- Setting a key that is absent and then deleting it restores the map. -/
theorem mapDelete_mapSet_fresh (k : String) (v : α) (m : List (String × α))
    (h : mapHas k m = false) : mapDelete k (mapSet k v m) = m := by
  induction m with
  | nil => simp [mapSet, mapDelete]
  | cons hd t ih =>
    obtain ⟨k0, v0⟩ := hd
    by_cases hk : k0 = k
    · simp [mapHas, mapGet, hk] at h
    · simp only [mapHas, mapGet, hk, if_neg hk] at h
      simp [mapSet, mapDelete, hk, ih h]

/-- Reading back the key just set. -/
theorem mapGet_mapSet_self (k : String) (v : α) (m : List (String × α)) :
    mapGet k (mapSet k v m) = some v := by
  induction m with
  | nil => simp [mapSet, mapGet]
  | cons hd t ih =>
    obtain ⟨k0, v0⟩ := hd
    by_cases hk : k0 = k
    · simp [mapSet, mapGet, hk]
    · simp [mapSet, mapGet, hk, ih]

/-! ### Claim theorems -/

/-- Claim C6 (confirmed): a create-subscription request made while the
number of subscriptions in status active or connecting is at or above the
configured maximum is rejected synchronously with the capacity error, and
the rejection leaves the registry maps unchanged. -/
theorem createSubscription_capacity_rejection (cfg : NtfyCfg)
    (m : ManagerState) (sid topic : String) (now : Nat)
    (startResult : Except ErrKind Unit)
    (hfull : cfg.maxSubscriptions ≤ (getActiveSubscriptions m).length) :
    (createSubscription cfg m sid topic now startResult).result =
      .error .capacity ∧
    (createSubscription cfg m sid topic now startResult).state = m := by
  simp [createSubscription, hfull]

/-- Concrete instance of the capacity rejection: a registry holding one
active subscription with a configured maximum of one rejects the next
request and is left unchanged by it. -/
def capacityCfg : NtfyCfg :=
  { maxSubscriptions := 1, subscriptionTimeout := 300000,
    pollStateTtl := 3600000, defaultMessageLimit := 100 }

/-- A registry already holding one active subscription. -/
def fullManager : ManagerState :=
  { subscriptions := [("sub1",
      { id := "sub1", topic := "alerts", status := .active, createdAt := 0,
        lastActivity := none, messageCount := 3, errorMessage := none })],
    subscribers := [("sub1", ())] }

/-- Witness for C6 at a concrete full registry. -/
theorem createSubscription_capacity_rejection_witness :
    (createSubscription capacityCfg fullManager "sub2" "news" 7 (.ok ())).result
      = .error .capacity ∧
    (createSubscription capacityCfg fullManager "sub2" "news" 7 (.ok ())).state
      = fullManager :=
  createSubscription_capacity_rejection capacityCfg fullManager "sub2" "news" 7
    (.ok ()) (by decide)

/-- Claim C10 (confirmed): when the awaited subscriber start throws, the
subscription record and the subscriber entry registered under the freshly
generated id are both removed again before the error propagates, so a
failed create leaves both registry maps exactly as they were. -/
theorem createSubscription_rollback_on_failure (cfg : NtfyCfg)
    (m : ManagerState) (sid topic : String) (now : Nat) (e : ErrKind)
    (hroom : (getActiveSubscriptions m).length < cfg.maxSubscriptions)
    (hfresh1 : mapHas sid m.subscriptions = false)
    (hfresh2 : mapHas sid m.subscribers = false) :
    (createSubscription cfg m sid topic now (.error e)).result =
      .error (.startFailed e) ∧
    (createSubscription cfg m sid topic now (.error e)).state = m := by
  have hnot : ¬ cfg.maxSubscriptions ≤ (getActiveSubscriptions m).length := by
    omega
  constructor
  · simp [createSubscription, hnot]
  · simp [createSubscription, hnot, mapDelete_mapSet_fresh _ _ _ hfresh1,
      mapDelete_mapSet_fresh _ _ _ hfresh2]

/-- Witness for C10: a failed start against a registry with a stopped entry
rolls both maps back to exactly that registry. -/
def partialManager : ManagerState :=
  { subscriptions := [("old1",
      { id := "old1", topic := "alerts", status := .stopped, createdAt := 0,
        lastActivity := some 5, messageCount := 1, errorMessage := none })],
    subscribers := [] }

/-- Witness theorem for C10 at a concrete registry. -/
theorem createSubscription_rollback_on_failure_witness :
    (createSubscription capacityCfg partialManager "new1" "news" 9
        (.error .connection)).result = .error (.startFailed .connection) ∧
    (createSubscription capacityCfg partialManager "new1" "news" 9
        (.error .connection)).state = partialManager :=
  createSubscription_rollback_on_failure capacityCfg partialManager "new1"
    "news" 9 .connection (by decide) (by decide) (by decide)

/-! ### Parsing lemmas and claims C8, C9 -/

/-- Truthiness of a field unfolded to presence plus non-falsiness. -/
theorem truthyField_iff (m : JsValue) (k : String) :
    m.truthyField k = true ↔ ∃ v, m.getField k = some v ∧ v.falsy = false := by
  unfold JsValue.truthyField
  cases h : m.getField k <;> simp

/-- The requirement the specification states for a record: each of the four
fields id, time, event, topic is present and not JavaScript-falsy. -/
def RequiredFieldsSpec (m : JsValue) : Prop :=
  ∀ k ∈ ["id", "time", "event", "topic"],
    ∃ v, m.getField k = some v ∧ v.falsy = false

/-- The source's guard chain agrees with the stated field requirement. -/
theorem hasRequiredFields_iff (m : JsValue) :
    hasRequiredFields m = true ↔ RequiredFieldsSpec m := by
  unfold hasRequiredFields RequiredFieldsSpec
  simp [List.forall_mem_cons, truthyField_iff, and_assoc]

/-- A record carrying all four required fields in which time is the number
zero (which is JavaScript-falsy). -/
def timeZeroRecord : JsValue :=
  .obj [("id", .str "msg1"), ("time", .num 0), ("event", .str "message"),
        ("topic", .str "alerts")]

/-- A record carrying all four required fields in which id is the empty
string (which is JavaScript-falsy). -/
def emptyIdRecord : JsValue :=
  .obj [("id", .str ""), ("time", .num 1700000000),
        ("event", .str "message"), ("topic", .str "alerts")]

/-- An ordinary well-formed notification record. -/
def goodRecord : JsValue :=
  .obj [("id", .str "msg1"), ("time", .num 1700000000),
        ("event", .str "message"), ("topic", .str "alerts")]

/-- Claim C8 (confirmed): parseJsonMessageSync throws an NtfyParseError
exactly when the input is empty or not valid JSON or some required field is
absent or JavaScript-falsy; in particular a record with all four fields
present but time equal to 0, or id equal to the empty string, is rejected,
while an ordinary record is accepted. -/
theorem parseJsonMessageSync_rejects_falsy_fields :
    (∀ jparse data, (∃ e, parseJsonMessageSync jparse data = .error e) ↔
      (data = "" ∨ jparse data = none ∨
        ∃ m, jparse data = some m ∧ ¬ RequiredFieldsSpec m)) ∧
    parseJsonMessageSync (fun _ => some timeZeroRecord) "x" = .error .parse ∧
    parseJsonMessageSync (fun _ => some emptyIdRecord) "x" = .error .parse ∧
    parseJsonMessageSync (fun _ => some goodRecord) "x" = .ok goodRecord := by
  refine ⟨?_, rfl, rfl, rfl⟩
  intro jparse data
  unfold parseJsonMessageSync
  by_cases hd : data = ""
  · simp [hd]
  · simp only [if_neg hd]
    cases hj : jparse data with
    | none => simp [hd, hj]
    | some m =>
      by_cases hr : hasRequiredFields m = true
      · have := (hasRequiredFields_iff m).mp hr
        simp [hd, hj, hr, this]
      · have : ¬ RequiredFieldsSpec m := fun hs =>
          hr ((hasRequiredFields_iff m).mpr hs)
        simp [hd, hj, hr, this]

/-- Witness for C8: a line that is not valid JSON is reported as a parse
failure. -/
theorem parseJsonMessageSync_rejects_falsy_fields_witness :
    ∃ e, parseJsonMessageSync (fun _ => none) "x" = .error e :=
  (parseJsonMessageSync_rejects_falsy_fields.1 (fun _ => none) "x").mpr
    (Or.inr (Or.inl rfl))

/-- Claim C9 (confirmed): a poll fetch keeps only records whose event kind
is message (open, keepalive and poll_request records are discarded), skips
unparseable lines without failing, and truncates the kept records to the
first limit of them in response order, the limit defaulting to 100. -/
theorem fetchMessages_only_message_kind_truncated :
    (∀ jparse limit text, ∀ m ∈ fetchMessagesBody jparse limit text,
       m.getField "event" = some (.str "message")) ∧
    (∀ jparse limit text,
       (fetchMessagesBody jparse limit text).length ≤ effectiveLimit limit) ∧
    effectiveLimit none = 100 ∧
    (∀ jparse line e, parseJsonMessageSync jparse line = .error e →
       keepFetchedLine jparse line = none) ∧
    (∀ jparse limit text, fetchMessagesBody jparse limit text =
       (keptMessages jparse text).take (effectiveLimit limit)) := by
  refine ⟨?_, ?_, rfl, ?_, fun _ _ _ => rfl⟩
  · intro jparse limit text m hm
    have hm2 : m ∈ keptMessages jparse text :=
      List.take_subset (effectiveLimit limit) _ hm
    unfold keptMessages at hm2
    split at hm2
    · simp at hm2
    · obtain ⟨line, _, hline⟩ := List.mem_filterMap.mp hm2
      split at hline
      · exact absurd hline (by simp)
      · unfold keepFetchedLine at hline
        split at hline
        · split at hline
          · rename_i hbeq
            cases hline
            exact eq_of_beq hbeq
          · exact absurd hline (by simp)
        · exact absurd hline (by simp)
  · intro jparse limit text
    exact List.length_take_le (effectiveLimit limit) (keptMessages jparse text)
  · intro jparse line e he
    unfold keepFetchedLine
    rw [he]

/-- Witness for C9: an unparseable line contributes nothing to the fetch. -/
theorem fetchMessages_only_message_kind_truncated_witness :
    keepFetchedLine (fun _ => none) "x" = none :=
  fetchMessages_only_message_kind_truncated.2.2.2.1 (fun _ => none) "x"
    .parse rfl

/-! ### Claims C4 and C7: the polling cursor -/

/-- Claim C4 (confirmed): the since parameter prefers the stored
lastMessageId and falls back to the lastPollTime timestamp; with an id
cursor every fetched message counts as new, with a time cursor messages at
or before lastPollTime (in milliseconds) are filtered out locally; when new
messages were found the id cursor moves to the most recent one and
totalMessagesSeen grows by their number; and lastPollTime is always
refreshed to now. -/
theorem pollCore_cursor_and_update (topic : String) (ps : PollState)
    (msgs : List NotifMsg) (now : Nat) :
    (∀ mid, ps.lastMessageId = some mid →
       (processPollCore now (some ps) topic msgs).since = .byId mid) ∧
    (ps.lastMessageId = none → 0 < ps.lastPollTime →
       (processPollCore now (some ps) topic msgs).since =
         .byTime ps.lastPollTime) ∧
    (ps.lastMessageId.isSome = true →
       (processPollCore now (some ps) topic msgs).newMessages = msgs) ∧
    (ps.lastMessageId = none →
       (processPollCore now (some ps) topic msgs).newMessages =
         msgs.filter (fun m => ps.lastPollTime < m.time * 1000)) ∧
    (∀ last,
       (processPollCore now (some ps) topic msgs).newMessages.getLast? =
         some last →
       (processPollCore now (some ps) topic msgs).state.lastMessageId =
         some last.id ∧
       (processPollCore now (some ps) topic msgs).state.totalMessagesSeen =
         ps.totalMessagesSeen +
           (processPollCore now (some ps) topic msgs).newMessages.length) ∧
    ((processPollCore now (some ps) topic msgs).newMessages = [] →
       (processPollCore now (some ps) topic msgs).state.totalMessagesSeen =
         ps.totalMessagesSeen) ∧
    (processPollCore now (some ps) topic msgs).state.lastPollTime = now ∧
    (processPollCore now (some ps) topic msgs).state.updatedAt = now := by
  refine ⟨?_, ?_, ?_, ?_, ?_, ?_, ?_, ?_⟩
  · intro mid h
    simp [processPollCore, computeSince, h]
  · intro h h2
    simp [processPollCore, computeSince, h, h2]
  · intro h
    obtain ⟨mid, hm⟩ := Option.isSome_iff_exists.mp h
    simp [processPollCore, filterNew, hm]
  · intro h
    simp [processPollCore, filterNew, h]
  · intro last h
    simp only [processPollCore] at h ⊢
    simp [updatePollState, h]
  · intro h
    simp only [processPollCore] at h ⊢
    simp [updatePollState, h]
  · simp only [processPollCore]
    unfold updatePollState
    cases h : (filterNew ps msgs).getLast? <;> simp [h]
  · simp only [processPollCore]
    unfold updatePollState
    cases h : (filterNew ps msgs).getLast? <;> simp [h]

/-- A stored poll state with a time cursor only. -/
def c4ps : PollState :=
  { topic := "alerts", lastMessageId := none, lastPollTime := 1000,
    totalMessagesSeen := 4, createdAt := 500, updatedAt := 1000 }

/-- Two fetched messages, one at or before the cursor and one after it. -/
def c4msgs : List NotifMsg :=
  [{ id := "old", time := 1 }, { id := "new", time := 2 }]

/-- Witness for C4 at a concrete time-cursor state. -/
theorem pollCore_cursor_and_update_witness :
    (processPollCore 5000 (some c4ps) "alerts" c4msgs).since = .byTime 1000 ∧
    (processPollCore 5000 (some c4ps) "alerts" c4msgs).newMessages =
      c4msgs.filter (fun m => 1000 < m.time * 1000) ∧
    (processPollCore 5000 (some c4ps) "alerts" c4msgs).state.lastPollTime =
      5000 := by
  have h := pollCore_cursor_and_update "alerts" c4ps c4msgs 5000
  exact ⟨h.2.1 rfl (by decide), h.2.2.2.1 rfl, h.2.2.2.2.2.2.1⟩

/-- The monotonicity stated by claim C7, as a proposition over one poll
operation: for every stored state observed before a poll whose wall time is
not in the past, the state stored afterwards has no smaller
totalMessagesSeen and no smaller lastPollTime. -/
def pollTotalsMonotoneClaim : Prop :=
  ∀ ttl topic (store : PollStore) msgs now (st : PollState),
    mapGet topic store = some st →
    st.updatedAt ≤ now →
    ∀ st2, mapGet topic ((pollStep ttl topic msgs now store).1) = some st2 →
      st.totalMessagesSeen ≤ st2.totalMessagesSeen ∧
      st.lastPollTime ≤ st2.lastPollTime

/-- One fetched message for the C7 scenario. -/
def c7msg : NotifMsg := { id := "m1", time := 2 }

/-- The store after a first poll of topic alerts at time 1000 that found
one message. -/
def c7store1 : PollStore := (pollStep 3600000 "alerts" [c7msg] 1000 []).1

/-- The state that first poll stores. -/
def c7state1 : PollState :=
  { topic := "alerts", lastMessageId := some "m1", lastPollTime := 1000,
    totalMessagesSeen := 1, createdAt := 1000, updatedAt := 1000 }

/-- The state stored by a second poll arriving after the TTL: the expired
state was evicted and recreated from scratch. -/
def c7state2 : PollState :=
  { topic := "alerts", lastMessageId := none, lastPollTime := 4601001,
    totalMessagesSeen := 0, createdAt := 4601001, updatedAt := 4601001 }

/-- Counterexample to claim C7 as stated: a second poll of the same topic
4600001 ms after the first (beyond the 3600000 ms TTL) finds the stored
state evicted, recreates it, and stores totalMessagesSeen = 0 where the
previous stored value was 1 - so across unrestricted sequences of poll
operations the counter does decrease. -/
theorem pollTotals_monotone_refuted : ¬ pollTotalsMonotoneClaim := by
  intro hcl
  have h1 : mapGet "alerts" c7store1 = some c7state1 := by decide
  have h2 : mapGet "alerts"
      ((pollStep 3600000 "alerts" [] 4601001 c7store1).1) = some c7state2 := by
    decide
  have h3 := hcl 3600000 "alerts" c7store1 [] 4601001 c7state1 h1
    (by decide) c7state2 h2
  exact absurd h3.1 (by decide)

/-- Claim C7 (corrected): between consecutive poll operations whose clock
is non-decreasing and which occur within the poll-state TTL of the stored
state (so that getState does not evict it), the stored lastPollTime is
non-decreasing and totalMessagesSeen never decreases; the conclusion
re-establishes the hypotheses for the following poll, so the invariant
holds along any such sequence. -/
theorem pollStep_monotone_within_ttl (ttl : Nat) (topic : String)
    (store : PollStore) (msgs : List NotifMsg) (now : Nat) (st : PollState)
    (hget : mapGet topic store = some st)
    (_hclock : st.updatedAt ≤ now) (hlp : st.lastPollTime ≤ now)
    (httl : now - st.updatedAt ≤ ttl) :
    ∃ st2, mapGet topic ((pollStep ttl topic msgs now store).1) = some st2 ∧
      st.totalMessagesSeen ≤ st2.totalMessagesSeen ∧
      st.lastPollTime ≤ st2.lastPollTime ∧
      st2.lastPollTime = now ∧ st2.updatedAt = now := by
  have hno : ¬ ttl < now - st.updatedAt := by omega
  simp only [pollStep, getState, hget, if_neg hno, processPollCore, setState]
  refine ⟨_, mapGet_mapSet_self _ _ _, ?_, ?_, ?_, rfl⟩
  · unfold updatePollState
    cases h : (filterNew st msgs).getLast? <;> simp [h]
  · unfold updatePollState
    cases h : (filterNew st msgs).getLast? <;> simp [h, hlp]
  · unfold updatePollState
    cases h : (filterNew st msgs).getLast? <;> simp [h]

/-- Witness for the corrected C7: a second poll 1000 ms after the first
keeps the counter at 1 and advances lastPollTime. -/
theorem pollStep_monotone_within_ttl_witness :
    ∃ st2, mapGet "alerts"
        ((pollStep 3600000 "alerts" [] 2000 c7store1).1) = some st2 ∧
      c7state1.totalMessagesSeen ≤ st2.totalMessagesSeen ∧
      c7state1.lastPollTime ≤ st2.lastPollTime ∧
      st2.lastPollTime = 2000 ∧ st2.updatedAt = 2000 :=
  pollStep_monotone_within_ttl 3600000 "alerts" c7store1 [] 2000 c7state1
    (by decide) (by decide) (by decide) (by decide)

/-! ### Claim C2: linear reconnect backoff, bounded attempts -/

/-- Claim C2 (confirmed): when a streaming (non-poll) subscription attempt
fails non-deliberately with fewer than MAX_RECONNECT_ATTEMPTS previous
attempts, the catch block schedules the next reconnect - the Nth overall -
with delay RECONNECT_DELAY times N (the attempt counter after the
increment) and rethrows nothing; once the counter has reached
MAX_RECONNECT_ATTEMPTS, no reconnect is scheduled, the counter stays put,
and the error is rethrown, reaching the awaiting catch handler which
surfaces it to the caller through onError. -/
theorem reconnect_backoff_linear_and_capped (h : Handlers) (poll : Bool)
    (e : ErrKind) (s : Sub)
    (hcf : s.hasCleanupFn = true) (hp : poll = false)
    (he : e ≠ .subscriptionClosed) (hn : e.isNtfyError = true)
    (ho : h.hasOnError = true) :
    (s.reconnectAttempts < MAX_RECONNECT_ATTEMPTS →
      (startSubscriptionCatch poll e s).thrown = none ∧
      (startSubscriptionCatch poll e s).state.reconnectAttempts =
        s.reconnectAttempts + 1 ∧
      (startSubscriptionCatch poll e s).state.pendingReconnectDelay =
        some (RECONNECT_DELAY * (s.reconnectAttempts + 1))) ∧
    (MAX_RECONNECT_ATTEMPTS ≤ s.reconnectAttempts →
      (startSubscriptionCatch poll e s).thrown = some e ∧
      (startSubscriptionCatch poll e s).state.pendingReconnectDelay =
        s.pendingReconnectDelay ∧
      (startSubscriptionCatch poll e s).state.reconnectAttempts =
        s.reconnectAttempts ∧
      handleSubscriptionErrorEvents h e = [.onError e]) := by
  constructor
  · intro hlt
    have hsr : shouldReconnect poll e s.reconnectAttempts = true := by
      simp [shouldReconnect, hp, he, hlt]
    simp [startSubscriptionCatch, hcf, hsr, scheduleReconnect]
  · intro hge
    have hsr : shouldReconnect poll e s.reconnectAttempts = false := by
      simp [shouldReconnect, hp, he]
      omega
    simp [startSubscriptionCatch, hcf, hsr, handleSubscriptionErrorEvents,
      ho, hn]

/-- A streaming connection state that has already made two reconnect
attempts and is in the middle of its third connection attempt. -/
def c2sub : Sub :=
  { hasAbortController := true, aborted := false, hasCleanupFn := true,
    connectionActive := false, lastKeepaliveTime := 0,
    reconnectAttempts := 2, keepaliveRunning := false,
    pendingReconnectDelay := none }

/-- The same state after exhausting all five allowed attempts. -/
def c2subMax : Sub :=
  { c2sub with reconnectAttempts := 5 }

/-- Witness for C2: the third attempt is scheduled 15000 ms out; after the
fifth failure nothing is scheduled and the connection error surfaces. -/
theorem reconnect_backoff_linear_and_capped_witness :
    ((startSubscriptionCatch false .connection c2sub).thrown = none ∧
      (startSubscriptionCatch false .connection c2sub).state.reconnectAttempts
        = 3 ∧
      (startSubscriptionCatch false .connection
          c2sub).state.pendingReconnectDelay = some 15000) ∧
    ((startSubscriptionCatch false .connection c2subMax).thrown =
        some .connection ∧
      (startSubscriptionCatch false .connection
          c2subMax).state.pendingReconnectDelay = none ∧
      (startSubscriptionCatch false .connection
          c2subMax).state.reconnectAttempts = 5 ∧
      handleSubscriptionErrorEvents
        ⟨true, true, true, true, true, true⟩ .connection =
          [.onError .connection]) := by
  constructor
  · exact (reconnect_backoff_linear_and_capped
      ⟨true, true, true, true, true, true⟩ false .connection c2sub rfl rfl
      (by decide) rfl rfl).1 (by decide)
  · exact (reconnect_backoff_linear_and_capped
      ⟨true, true, true, true, true, true⟩ false .connection c2subMax rfl rfl
      (by decide) rfl rfl).2 (by decide)

/-! ### Claim C5: per-line decode failures are local -/

/-- The events of one line do not depend on the subscriber state. -/
theorem processLine_events (jparse : String → Option JsValue) (h : Handlers)
    (now : Nat) (s : Sub) (line : String) :
    (processLine jparse h now s line).2 = lineEvents jparse h line := by
  unfold processLine lineEvents
  by_cases ht : jsTrim line = ""
  · simp [ht]
  · simp only [if_neg ht]
    cases parseJsonMessageSync jparse line <;> rfl

/-- Processing one line never changes connectionActive. -/
theorem processLine_connectionActive (jparse : String → Option JsValue)
    (h : Handlers) (now : Nat) (s : Sub) (line : String) :
    (processLine jparse h now s line).1.connectionActive =
      s.connectionActive := by
  unfold processLine
  by_cases ht : jsTrim line = ""
  · simp [ht]
  · simp only [if_neg ht]
    cases parseJsonMessageSync jparse line <;> rfl

/-- The events of a list of lines are the concatenation of the events of
each line, independent of the threaded state. -/
theorem processLines_events (jparse : String → Option JsValue) (h : Handlers)
    (now : Nat) (ls : List String) : ∀ s : Sub,
    (processLines jparse h now s ls).2 = ls.flatMap (lineEvents jparse h) := by
  induction ls with
  | nil => intro s; rfl
  | cons l t ih =>
    intro s
    simp only [processLines, List.flatMap_cons]
    rw [processLine_events, ih]

/-- Processing a list of lines never changes connectionActive. -/
theorem processLines_connectionActive (jparse : String → Option JsValue)
    (h : Handlers) (now : Nat) (ls : List String) : ∀ s : Sub,
    (processLines jparse h now s ls).1.connectionActive =
      s.connectionActive := by
  induction ls with
  | nil => intro s; rfl
  | cons l t ih =>
    intro s
    simp only [processLines]
    rw [ih, processLine_connectionActive]

/-- Claim C5 (confirmed): within one decoded chunk, the complete lines are
processed in order with their events concatenated; a non-blank line that
fails to decode contributes exactly one parse-classified onError report and
nothing else (the line is dropped); chunk processing never deactivates the
connection; and the trailing partial line is retained as the new buffer. -/
theorem parse_failure_is_per_line (jparse : String → Option JsValue)
    (h : Handlers) (now : Nat) (s : Sub) (buffer data : String)
    (ho : h.hasOnError = true) :
    ((processChunk jparse h now s buffer data).2.2 =
      (jsSplitLines (buffer ++ data)).dropLast.flatMap
        (lineEvents jparse h)) ∧
    (∀ line e, jsTrim line ≠ "" →
      parseJsonMessageSync jparse line = .error e →
      lineEvents jparse h line = [.onError .parse]) ∧
    ((processChunk jparse h now s buffer data).1.connectionActive =
      s.connectionActive) ∧
    ((processChunk jparse h now s buffer data).2.1 =
      (jsSplitLines (buffer ++ data)).getLastD "") := by
  refine ⟨?_, ?_, ?_, rfl⟩
  · exact processLines_events jparse h now _ s
  · intro line e ht hp
    unfold lineEvents
    rw [if_neg ht, hp]
    simp [handleParseErrorEvents, ho]
  · exact processLines_connectionActive jparse h now _ s

/-- All six callbacks supplied. -/
def allHandlers : Handlers := ⟨true, true, true, true, true, true⟩

/-- A concrete JSON.parse: the line good parses to an ordinary record,
everything else is a syntax error. -/
def c5jparse : String → Option JsValue := fun line =>
  if line = "good" then some goodRecord else none

/-- A streaming subscriber in mid-stream. -/
def streamingSub : Sub :=
  { hasAbortController := true, aborted := false, hasCleanupFn := true,
    connectionActive := true, lastKeepaliveTime := 0,
    reconnectAttempts := 0, keepaliveRunning := true,
    pendingReconnectDelay := none }

/-- Witness for C5: a chunk holding one good line, one bad line and a
trailing partial line yields the good record's dispatch, then one parse
error, keeps the connection active, and retains the partial line. -/
theorem parse_failure_is_per_line_witness :
    (processChunk c5jparse allHandlers 5 streamingSub "" "good\nbad\ngo").2.2 =
      [.onMessage goodRecord, .onAnyMessage goodRecord, .onError .parse] ∧
    (processChunk c5jparse allHandlers 5 streamingSub ""
        "good\nbad\ngo").1.connectionActive = true ∧
    (processChunk c5jparse allHandlers 5 streamingSub "" "good\nbad\ngo").2.1 =
      "go" := by
  have hthm := parse_failure_is_per_line c5jparse allHandlers 5 streamingSub
    "" "good\nbad\ngo" rfl
  refine ⟨?_, ?_, ?_⟩
  · rw [hthm.1]; decide
  · rw [hthm.2.2.1]; rfl
  · rw [hthm.2.2.2]; decide

/-! ### Claim C3: unsubscribe idempotence and onClose accounting -/

/-- The number of onClose invocations in an event list. -/
def countOnClose (evs : List Event) : Nat :=
  evs.countP (fun e => e == Event.onClose)

/-- Record dispatch never invokes onClose. -/
theorem countOnClose_handleMessageEvents (h : Handlers) (m : JsValue) :
    countOnClose (handleMessageEvents h m) = 0 := by
  unfold countOnClose handleMessageEvents
  rw [List.countP_append]
  have h2 : List.countP (fun e => e == Event.onClose)
      (if h.hasOnAnyMessage then [Event.onAnyMessage m] else []) = 0 := by
    cases h.hasOnAnyMessage <;> simp
  rw [h2]
  split <;> simp

/-- Parse-error reporting never invokes onClose. -/
theorem countOnClose_handleParseErrorEvents (h : Handlers) :
    countOnClose (handleParseErrorEvents h) = 0 := by
  unfold countOnClose handleParseErrorEvents
  cases h.hasOnError <;> simp

/-- Subscription-error reporting never invokes onClose. -/
theorem countOnClose_handleSubscriptionErrorEvents (h : Handlers)
    (e : ErrKind) :
    countOnClose (handleSubscriptionErrorEvents h e) = 0 := by
  unfold countOnClose handleSubscriptionErrorEvents
  cases h.hasOnError
  · simp
  · cases e.isNtfyError <;> simp

/-- Line processing never invokes onClose. -/
theorem countOnClose_lineEvents (jparse : String → Option JsValue)
    (h : Handlers) (line : String) :
    countOnClose (lineEvents jparse h line) = 0 := by
  unfold lineEvents
  by_cases ht : jsTrim line = ""
  · simp [ht, countOnClose]
  · simp only [if_neg ht]
    cases parseJsonMessageSync jparse line with
    | ok m => exact countOnClose_handleMessageEvents h m
    | error e => exact countOnClose_handleParseErrorEvents h

/-- countOnClose distributes over concatenation. -/
theorem countOnClose_append (a b : List Event) :
    countOnClose (a ++ b) = countOnClose a + countOnClose b :=
  List.countP_append _ a b

/-- Chunk processing never invokes onClose. -/
theorem countOnClose_processChunk (jparse : String → Option JsValue)
    (h : Handlers) (now : Nat) (s : Sub) (buffer data : String) :
    countOnClose (processChunk jparse h now s buffer data).2.2 = 0 := by
  unfold processChunk
  simp only
  rw [processLines_events]
  generalize (jsSplitLines (buffer ++ data)).dropLast = ls
  induction ls with
  | nil => rfl
  | cons l t ih =>
    rw [List.flatMap_cons, countOnClose_append, ih,
      countOnClose_lineEvents]

/-- The read loop fires onClose at most once, and not at all when it ends
by rethrowing an error. -/
theorem countOnClose_processStream (jparse : String → Option JsValue)
    (h : Handlers) (script : List ReadResult) : ∀ (s : Sub) (buf : String),
    countOnClose (processStream jparse h s buf script).events ≤ 1 ∧
    ((processStream jparse h s buf script).thrown.isSome = true →
      countOnClose (processStream jparse h s buf script).events = 0) := by
  induction script with
  | nil =>
    intro s buf
    unfold processStream
    simp [countOnClose]
  | cons r rest ih =>
    intro s buf
    unfold processStream
    by_cases hc : s.connectionActive = true
    · simp only [hc, if_true]
      cases r with
      | done =>
        cases h.hasOnClose <;> simp [countOnClose]
      | chunk t data =>
        simp only
        constructor
        · rw [countOnClose_append, countOnClose_processChunk]
          have := (ih (processChunk jparse h t s buf data).1
            (processChunk jparse h t s buf data).2.1).1
          omega
        · intro hth
          rw [countOnClose_append, countOnClose_processChunk]
          have := (ih (processChunk jparse h t s buf data).1
            (processChunk jparse h t s buf data).2.1).2 hth
          omega
      | readErr isAbort =>
        simp [countOnClose]
    · simp only [hc]
      simp [countOnClose]

/-- One connection attempt fires onClose at most once, and not at all when
it ends by scheduling a reconnect or rethrowing. -/
theorem countOnClose_runAttempt (jparse : String → Option JsValue)
    (h : Handlers) (poll : Bool) (s : Sub) (a : AttemptScript) :
    countOnClose (runAttempt jparse h poll s a).events ≤ 1 ∧
    ((runAttempt jparse h poll s a).scheduled = true →
      countOnClose (runAttempt jparse h poll s a).events = 0) := by
  unfold runAttempt
  cases a with
  | connectFail => simp [countOnClose]
  | body script =>
    simp only
    cases hth : (processStream jparse h
        { s with hasAbortController := true, aborted := false,
                 hasCleanupFn := true, connectionActive := true } "" script).thrown with
    | none =>
      simp only [hth]
      exact ⟨(countOnClose_processStream jparse h script _ _).1,
        fun hfalse => by simp at hfalse⟩
    | some e =>
      simp only [hth]
      have h0 := (countOnClose_processStream jparse h script
        { s with hasAbortController := true, aborted := false,
                 hasCleanupFn := true, connectionActive := true } "").2
        (by rw [hth]; rfl)
      constructor
      · rw [h0]; omega
      · intro _; exact h0

/-- A whole subscribe run - the first attempt plus every reconnect attempt
its failures schedule - fires onClose at most once. -/
theorem countOnClose_runChain (jparse : String → Option JsValue)
    (h : Handlers) (poll : Bool) (scripts : List AttemptScript) :
    ∀ s : Sub, countOnClose (runChain jparse h poll s scripts).2 ≤ 1 := by
  induction scripts with
  | nil =>
    intro s
    simp [runChain, countOnClose]
  | cons a rest ih =>
    intro s
    unfold runChain
    by_cases hs : (runAttempt jparse h poll s a).scheduled = true
    · simp only [hs, if_true]
      rw [countOnClose_append,
        (countOnClose_runAttempt jparse h poll s a).2 hs]
      have := ih (runAttempt jparse h poll s a).state
      omega
    · simp only [hs]
      simp only [Bool.false_eq_true, if_false]
      cases hth : (runAttempt jparse h poll s a).thrown with
      | some e =>
        rw [countOnClose_append, countOnClose_handleSubscriptionErrorEvents]
        have := (countOnClose_runAttempt jparse h poll s a).1
        omega
      | none =>
        exact (countOnClose_runAttempt jparse h poll s a).1

/-- Claim C3 (confirmed): unsubscribe is idempotent - a second call is a
no-op on the state; called while a connect attempt is in flight it aborts
the in-flight request; after any call the subscriber is in the terminal
disconnected configuration (connection inactive, keepalive interval and
cleanup callback cleared, controller released), reached by the first call
and not re-entered; unsubscribe itself invokes no callbacks; and over any
subscribe run, onClose fires at most once. -/
theorem unsubscribe_idempotent_onClose_once :
    (∀ s : Sub, unsubscribe (unsubscribe s) = unsubscribe s) ∧
    (∀ s : Sub, s.hasAbortController = true → (unsubscribe s).aborted = true) ∧
    (∀ s : Sub, (unsubscribe s).connectionActive = false ∧
      (unsubscribe s).keepaliveRunning = false ∧
      (unsubscribe s).hasAbortController = false ∧
      (unsubscribe s).hasCleanupFn = false) ∧
    (∀ (jparse : String → Option JsValue) (h : Handlers) (poll : Bool)
      (s : Sub) (scripts : List AttemptScript),
      countOnClose (runChain jparse h poll s scripts).2 ≤ 1) := by
  refine ⟨?_, ?_, ?_, ?_⟩
  · intro s
    cases hA : s.hasAbortController <;> cases hC : s.hasCleanupFn <;>
      simp [unsubscribe, stopKeepaliveCheck, hA, hC]
  · intro s hA
    simp [unsubscribe, stopKeepaliveCheck, hA]
    split <;> rfl
  · intro s
    cases hA : s.hasAbortController <;> cases hC : s.hasCleanupFn <;>
      simp [unsubscribe, stopKeepaliveCheck, hA, hC]
  · intro jparse h poll s scripts
    exact countOnClose_runChain jparse h poll scripts s

/-- Witness for C3: a second unsubscribe of a mid-stream subscriber is a
no-op, the first call aborts the in-flight request, and a run whose stream
ends normally fires onClose exactly once, hence at most once. -/
theorem unsubscribe_idempotent_onClose_once_witness :
    unsubscribe (unsubscribe streamingSub) = unsubscribe streamingSub ∧
    (unsubscribe streamingSub).aborted = true ∧
    countOnClose
      (runChain c5jparse allHandlers false streamingSub [.body [.done]]).2
      ≤ 1 := by
  refine ⟨unsubscribe_idempotent_onClose_once.1 streamingSub,
    unsubscribe_idempotent_onClose_once.2.1 streamingSub rfl,
    unsubscribe_idempotent_onClose_once.2.2.2 c5jparse allHandlers false
      streamingSub [.body [.done]]⟩

/-! ### Claim C1: what a keepalive timeout actually does -/

/-- Claim C1 as stated: for a live streaming connection whose last record
is more than the keepalive timeout in the past, the next keepalive-check
tick fires onError exactly once (with a Timeout classification) and the
connection enters reconnect-pending rather than terminal idle. -/
def keepaliveReconnectClaim : Prop :=
  ∀ (h : Handlers) (now : Nat) (s : Sub),
    h.hasOnError = true → s.connectionActive = true →
    s.hasAbortController = true → s.hasCleanupFn = true →
    s.pendingReconnectDelay = none →
    KEEPALIVE_TIMEOUT < now - s.lastKeepaliveTime →
    (keepaliveDeathPath h now s).events = [.onError .timeout] ∧
    (keepaliveDeathPath h now s).state.pendingReconnectDelay.isSome = true

/-- Counterexample to claim C1 as stated: at a concrete live streaming
connection that has been silent for longer than the keepalive timeout, the
tick reports the timeout but unsubscribes; no reconnect is ever scheduled
(the aborted read surfaces as a subscription-closed error, which the
reconnect condition excludes - and the cleared cleanup callback makes the
catch block fail even earlier), and a second, connection-classified onError
follows, so neither the exactly-once part nor the reconnect-pending part
survives. -/
theorem keepaliveReconnectClaim_refuted : ¬ keepaliveReconnectClaim := by
  intro hcl
  have h := hcl allHandlers 120001 streamingSub rfl rfl rfl rfl rfl
    (by decide)
  exact absurd h.2 (by decide)

/-- Claim C1 (corrected): for every live streaming connection silent beyond
the keepalive timeout, the next keepalive-check tick fires onError with a
Timeout classification and then tears the connection down terminally via
unsubscribe - keepalive timer stopped, in-flight read aborted, connection
inactive - with no reconnect scheduled and the attempt counter untouched;
the unwinding of the aborted read then surfaces one further onError with a
connection classification (the catch block trips over the already-cleared
cleanup callback), rather than entering reconnect-pending. -/
theorem keepalive_timeout_terminal_unsubscribe (h : Handlers) (now : Nat)
    (s : Sub) (ho : h.hasOnError = true) (hactive : s.connectionActive = true)
    (hac : s.hasAbortController = true) (hcf : s.hasCleanupFn = true)
    (hpend : s.pendingReconnectDelay = none)
    (helapsed : KEEPALIVE_TIMEOUT < now - s.lastKeepaliveTime) :
    (keepaliveDeathPath h now s).events =
      [.onError .timeout, .onError .connection] ∧
    (keepaliveDeathPath h now s).state.connectionActive = false ∧
    (keepaliveDeathPath h now s).state.keepaliveRunning = false ∧
    (keepaliveDeathPath h now s).state.aborted = true ∧
    (keepaliveDeathPath h now s).state.pendingReconnectDelay = none ∧
    (keepaliveDeathPath h now s).state.reconnectAttempts =
      s.reconnectAttempts := by
  have htick : keepaliveTick h now s =
      (unsubscribe s, handleSubscriptionErrorEvents h .timeout) := by
    unfold keepaliveTick
    rw [if_pos ⟨helapsed, hactive⟩]
  have huns : unsubscribe s =
      { s with keepaliveRunning := false, aborted := true,
               hasAbortController := false, hasCleanupFn := false,
               connectionActive := false } := by
    simp [unsubscribe, stopKeepaliveCheck, hac, hcf]
  unfold keepaliveDeathPath
  rw [htick, huns]
  simp [startSubscriptionCatch, readErrorThrown,
    handleSubscriptionErrorEvents, ho, hpend, ErrKind.isNtfyError]

/-- Witness for the corrected C1 at the same concrete silent connection. -/
theorem keepalive_timeout_terminal_unsubscribe_witness :
    (keepaliveDeathPath allHandlers 120001 streamingSub).events =
      [.onError .timeout, .onError .connection] ∧
    (keepaliveDeathPath allHandlers 120001 streamingSub).state.connectionActive
      = false ∧
    (keepaliveDeathPath allHandlers 120001
        streamingSub).state.keepaliveRunning = false ∧
    (keepaliveDeathPath allHandlers 120001 streamingSub).state.aborted =
      true ∧
    (keepaliveDeathPath allHandlers 120001
        streamingSub).state.pendingReconnectDelay = none ∧
    (keepaliveDeathPath allHandlers 120001
        streamingSub).state.reconnectAttempts = 0 :=
  keepalive_timeout_terminal_unsubscribe allHandlers 120001 streamingSub rfl
    rfl rfl rfl rfl (by decide)

end NtfyMcp
